import Mathlib

/-!
Verification of `rusty-jwt-tools` (JWT verification core and ACME authorization
handling) against its natural-language specification.

The Rust sources are shallowly embedded:
* `src/jwt/src/jwt/verify.rs` — `Verify`, `VerificationOptions` construction,
  `verify_jwt`, `jwt_error_mapping`;
* `src/jwt/src/dpop/mod.rs` — `Dpop` and `Dpop::into_jwt_claims`;
* `src/acme/src/authz.rs` — `AcmeAuthz`, `AuthzStatus`, `new_authz_response`,
  challenge selection and `AcmeAuthz::verify`.

Machine integers (`u64` timestamps, seconds) are modelled as `Nat`: all the
quantities involved (unix timestamps, durations in seconds) are non-negative
and far from overflow in every reachable state. Fallible operations return
`Except`. Side effects (the `coarsetime` clock reading, UUID generation for
`jti`, the `jwt_simple` signature check) are passed as explicit arguments.
-/

namespace RustyJwtTools

/-- The typed JWT error taxonomy, from `RustyJwtError` (crate `rusty-jwt-tools`).
Only the variants reachable from the embedded code are modelled. -/
inductive RustyJwtError where
  | MissingTokenClaim (name : String)
  | TokenSubMismatch
  | DpopNonceMismatch
  | DpopHtuMismatch
  | InvalidDpopIat
  | DpopNotYetValid
  | TokenExpired
  | InvalidDpopJwk
  | TokenLivesTooLong
  | MissingIssuer
  | InvalidToken (reason : String)
deriving DecidableEq, Repr

/-- Rust's `str::starts_with` with a string pattern: a byte-prefix test,
which on UTF-8 strings is exactly a character-list prefix test. -/
def str_starts_with (s pat : String) : Bool :=
  pat.toList.isPrefixOf s.toList

/-- `jwt_error_mapping` from `src/jwt/src/jwt/verify.rs` lines 101-129.
`jwt_simple` returns an untyped `anyhow::Error`; the Rust code matches on
`e.to_string()`, so the embedding takes the textual reason directly. The
exact-string arms come first, then the `starts_with` guard arms, in source
order, with `InvalidToken(reason)` as the fallthrough. -/
def jwt_error_mapping (reason : String) : RustyJwtError :=
  if reason = "Required subject missing" then .MissingTokenClaim "sub"
  else if reason = "Required nonce missing" then .MissingTokenClaim "nonce"
  else if reason = "Required subject mismatch" then .TokenSubMismatch
  else if reason = "Required nonce mismatch" then .DpopNonceMismatch
  else if reason = "Required issuer mismatch" then .DpopHtuMismatch
  else if reason = "Clock drift detected" then .InvalidDpopIat
  else if reason = "Token not valid yet" then .DpopNotYetValid
  else if reason = "Token has expired" then .TokenExpired
  else if reason = "Invalid JWK in DPoP token" then .InvalidDpopJwk
  else if reason = "Required issuer missing" then .MissingIssuer
  else if str_starts_with reason "missing field `chal`" then .MissingTokenClaim "chal"
  else if str_starts_with reason "missing field `htm`" then .MissingTokenClaim "htm"
  else if str_starts_with reason "missing field `htu`" then .MissingTokenClaim "htu"
  else if str_starts_with reason "missing field `cnf`" then .MissingTokenClaim "cnf"
  else if str_starts_with reason "missing field `proof`" then .MissingTokenClaim "proof"
  else if str_starts_with reason "missing field `api_version`" then .MissingTokenClaim "api_version"
  else if str_starts_with reason "missing field `client_id`" then .MissingTokenClaim "client_id"
  else if str_starts_with reason "missing field `scope`" then .MissingTokenClaim "scope"
  else if str_starts_with reason "missing field `handle`" then .MissingTokenClaim "handle"
  else .InvalidToken reason

/-- Modelled from the spec: `ClientId` (not under `src/`; `src/` only uses its
`to_uri`). The spec gives it a canonical URI form
`wireapp://{base64url(user_id)}!{hex(device_id)}@{domain}`, immutable per
enrollment; the embedding carries that canonical URI directly. -/
structure ClientId where
  uri : String
deriving DecidableEq, Repr

/-- `ClientId::to_uri` — returns the canonical URI of the client identifier. -/
def ClientId.to_uri (c : ClientId) : String := c.uri

/-- `Verify` from `src/jwt/src/jwt/verify.rs` lines 10-19. `BackendNonce` and
`Htu` (not under `src/`) are opaque strings here: `verify.rs` only ever calls
`to_string` on them. -/
structure Verify where
  client_id : ClientId
  backend_nonce : Option String
  leeway : Nat
  issuer : Option String
deriving DecidableEq, Repr

/-- The fields of `jwt_simple::VerificationOptions` that
`From<&Verify> for VerificationOptions` sets (the rest keep their `Default`
and are irrelevant to the claims). `HashSet` of issuers is modelled as a
list. -/
structure VerificationOptions where
  accept_future : Bool
  required_key_id : Option String
  required_subject : Option String
  required_nonce : Option String
  time_tolerance : Option Nat
  allowed_issuers : Option (List String)
deriving DecidableEq, Repr

/-- `impl From<&Verify> for VerificationOptions`, `verify.rs` lines 21-33. -/
def verificationOptionsOfVerify (v : Verify) : VerificationOptions :=
  { accept_future := false
    required_key_id := none
    required_subject := some v.client_id.to_uri
    required_nonce := v.backend_nonce
    time_tolerance := some v.leeway
    allowed_issuers := v.issuer.map (fun i => [i]) }

/-- `jwt_simple::JWTClaims<T>`: the claim set the library hands back after
signature verification, and that `Dpop::into_jwt_claims` constructs.
Timestamps (`UnixTimeStamp`/`Duration`) are seconds as `Nat`; the audience set
is modelled as the single audience URL this codebase ever sets. -/
structure JWTClaims (T : Type) where
  issued_at : Option Nat
  expires_at : Option Nat
  invalid_before : Option Nat
  audiences : Option String
  issuer : Option String
  jwt_id : Option String
  subject : Option String
  nonce : Option String
  custom : T
deriving DecidableEq, Repr

/-- `verify_jwt` from `src/jwt/src/jwt/verify.rs` lines 73-97.
`key.verify_token::<T>(self, verifications)` is a call into the external
`jwt_simple` library; its outcome is the `verifyResult` argument (`.error
reason` when the library fails with textual reason `reason`, `.ok claims`
when the signature and the `VerificationOptions` checks pass). The code after
it is embedded line by line: the `jti`/`exp`/`iat`/`nbf` presence checks in
that order, then `exp > Duration::from_secs(max_expiration)`. -/
def verify_jwt {T : Type} (verifyResult : Except String (JWTClaims T))
    (max_expiration : Nat) : Except RustyJwtError (JWTClaims T) :=
  match verifyResult with
  | .error e => .error (jwt_error_mapping e)
  | .ok claims =>
    match claims.jwt_id with
    | none => .error (.MissingTokenClaim "jti")
    | some _ =>
      match claims.expires_at with
      | none => .error (.MissingTokenClaim "exp")
      | some exp =>
        match claims.issued_at with
        | none => .error (.MissingTokenClaim "iat")
        | some _ =>
          match claims.invalid_before with
          | none => .error (.MissingTokenClaim "nbf")
          | some _ =>
            if exp > max_expiration then .error .TokenLivesTooLong
            else .ok claims

/-- `Dpop` from `src/jwt/src/dpop/mod.rs` lines 24-43. `Htm`, `Htu`,
`AcmeNonce`, `QualifiedHandle` and `Team` are opaque strings here; the
optional flattened `extra_claims` JSON is irrelevant to the claims under
verification and omitted. -/
structure Dpop where
  htm : String
  htu : String
  challenge : String
  handle : String
  team : String
deriving DecidableEq, Repr

/-- `Dpop::NOW_LEEWAY_SECONDS`, `dpop/mod.rs` line 50. -/
def Dpop.NOW_LEEWAY_SECONDS : Nat := 3600

/-- `Dpop::into_jwt_claims`, `dpop/mod.rs` lines 53-70. Effects are explicit
arguments: `now` is the `coarsetime::Clock::now_since_epoch()` reading (the
code reads the clock twice — once on line 61 and once inside
`jwt_simple::Claims::with_custom_claims` — with no intervening delay, so one
reading stands for both) and `jti` is the fresh UUID from `new_jti()`.
`jwt_simple::Claims::with_custom_claims(custom, valid_for)` initialises
`issued_at = invalid_before = clock now` and `expires_at = clock now +
valid_for`; the builder then overrides `invalid_before` and the code assigns
`issued_at` to `now - NOW_LEEWAY_SECONDS`, leaving `expires_at` at
`now + expiry`. -/
def Dpop.into_jwt_claims (dpop : Dpop) (nonce : String) (client_id : ClientId)
    (expiry : Nat) (audience : String) (now : Nat) (jti : String) :
    JWTClaims Dpop :=
  let nowLeeway := now - Dpop.NOW_LEEWAY_SECONDS
  { issued_at := some nowLeeway
    expires_at := some (now + expiry)
    invalid_before := some nowLeeway
    audiences := some audience
    issuer := none
    jwt_id := some jti
    subject := some client_id.to_uri
    nonce := some nonce
    custom := dpop }

end RustyJwtTools

namespace RustyAcme

/-- A JSON value, standing for `serde_json::Value`. Numbers do not occur in
the ACME authorization shapes under verification, so only the constructors
those shapes use are modelled; an object is an ordered field list, as
`serde_json`'s preserve-order feature and `serde` derive both respect
declaration order. -/
inductive Json where
  | null : Json
  | str (s : String) : Json
  | arr (elems : List Json) : Json
  | obj (fields : List (String × Json)) : Json
deriving Repr

/-- Field lookup in a JSON object (first occurrence), as `serde` sees named
fields; `none` on non-objects and absent keys. -/
def Json.lookup (j : Json) (key : String) : Option Json :=
  match j with
  | .obj fields => (fields.find? (fun kv => kv.1 = key)).map (·.2)
  | _ => none

/-- `AuthzStatus` from `src/acme/src/authz.rs` lines 131-138. -/
inductive AuthzStatus where
  | Pending
  | Invalid
  | Valid
  | Revoked
  | Deactivated
  | Expired
deriving DecidableEq, Repr

/-- `AcmeAuthzError` from `src/acme/src/authz.rs` lines 50-63. -/
inductive AcmeAuthzError where
  | Expired
  | Invalid
  | Revoked
  | Deactivated
deriving DecidableEq, Repr

/-- The variants of `RustyAcmeError` reachable from the embedded code:
a serde deserialization failure (`#[from] serde_json::Error`), an authz
protocol error (`#[from] AcmeAuthzError`), and
`ClientImplementationError(&'static str)`. -/
inductive RustyAcmeError where
  | JsonError (reason : String)
  | AuthzError (e : AcmeAuthzError)
  | ClientImplementationError (reason : String)
deriving DecidableEq, Repr

/-- Modelled from the spec: `AcmeChallengeType` (`src/acme/src/chall.rs` is
not under `src/`). The custom challenge `type` values are `wire-dpop-01` and
`wire-oidc-01` (spec §6); `http-01` and `dns-01` appear in the sample
authorization JSON that must deserialize and in `http_challenge`
(`authz.rs` line 84). -/
inductive AcmeChallengeType where
  | Http01
  | Dns01
  | WireDpop01
  | WireOidc01
deriving DecidableEq, Repr

/-- Modelled from the spec: `ChallengeStatus` = `{pending, processing, valid,
invalid}` (spec §3); the challenge definition is not under `src/`. -/
inductive ChallengeStatus where
  | Pending
  | Processing
  | Valid
  | Invalid
deriving DecidableEq, Repr

/-- Modelled from the spec: `AcmeChallenge` (not under `src/`). Its fields —
an optional `status`, a `typ` serialized as `type`, a `url` and a `token` —
are those used by `authz.rs` (lines 83-93 and the `Default` at lines
118-123) and shown by the sample JSON. `url::Url` is an opaque string. -/
structure AcmeChallenge where
  status : Option ChallengeStatus
  typ : AcmeChallengeType
  url : String
  token : String
deriving DecidableEq, Repr

/-- Modelled from the spec: `AcmeIdentifier` (not under `src/`): a tagged
`{type, value}` pair; the `type` is `wireapp-id` and the `value` the DNS
entry / ClientId URI (spec §6, sample JSON). -/
structure AcmeIdentifier where
  typ : String
  value : String
deriving DecidableEq, Repr

/-- `time::OffsetDateTime` restricted to what the embedded code observes: a
civil UTC date-time at second precision (RFC 3339 `Z` form, the form the
ACME payloads use). Years are ≥ 1970 in every protocol value. -/
structure OffsetDateTime where
  year : Nat
  month : Nat
  day : Nat
  hour : Nat
  minute : Nat
  second : Nat
deriving DecidableEq, Repr

/-- Gregorian leap-year test. -/
def isLeapYear (y : Nat) : Bool :=
  y % 4 = 0 && (y % 100 ≠ 0 || y % 400 = 0)

/-- Days in a month of a given year. -/
def daysInMonth (y m : Nat) : Nat :=
  if m = 2 then (if isLeapYear y then 29 else 28)
  else if m = 4 || m = 6 || m = 9 || m = 11 then 30
  else 31

/-- Days in a whole year. -/
def daysInYear (y : Nat) : Nat := if isLeapYear y then 366 else 365

/-- Days from 1970-01-01 to the start of year `y` (for `y ≥ 1970`). -/
def daysToYear (y : Nat) : Nat :=
  ((List.range (y - 1970)).map (fun i => daysInYear (1970 + i))).sum

/-- Days from the start of year `y` to the start of month `m` of year `y`. -/
def daysToMonth (y m : Nat) : Nat :=
  ((List.range (m - 1)).map (fun i => daysInMonth y (1 + i))).sum

/-- `OffsetDateTime::unix_timestamp`: seconds since 1970-01-01T00:00:00Z. -/
def OffsetDateTime.unix_timestamp (t : OffsetDateTime) : Nat :=
  (daysToYear t.year + daysToMonth t.year t.month + (t.day - 1)) * 86400
    + t.hour * 3600 + t.minute * 60 + t.second

/-- Interprets a character as a decimal digit. -/
def digitVal (c : Char) : Option Nat :=
  if c.isDigit then some (c.toNat - 48) else none

/-- Two decimal digits. -/
def twoDigits (a b : Char) : Option Nat := do
  let x ← digitVal a
  let y ← digitVal b
  pure (x * 10 + y)

/-- The `time::serde::rfc3339` deserialization, restricted to the
`YYYY-MM-DDTHH:MM:SSZ` shape (UTC, second precision) that the ACME payloads
carry; component ranges are validated as `time` does. -/
def rfc3339Read (s : String) : Option OffsetDateTime :=
  match s.toList with
  | [y1, y2, y3, y4, '-', m1, m2, '-', d1, d2, 'T',
     h1, h2, ':', n1, n2, ':', s1, s2, 'Z'] => do
    let yh ← twoDigits y1 y2
    let yl ← twoDigits y3 y4
    let mo ← twoDigits m1 m2
    let da ← twoDigits d1 d2
    let ho ← twoDigits h1 h2
    let mi ← twoDigits n1 n2
    let se ← twoDigits s1 s2
    let y := yh * 100 + yl
    if 1970 ≤ y ∧ 1 ≤ mo ∧ mo ≤ 12 ∧ 1 ≤ da ∧ da ≤ daysInMonth y mo ∧
        ho ≤ 23 ∧ mi ≤ 59 ∧ se ≤ 59 then
      pure ⟨y, mo, da, ho, mi, se⟩
    else none
  | _ => none

/-- Left-pads a numeral to two digits. -/
def pad2 (n : Nat) : String :=
  if n < 10 then "0" ++ toString n else toString n

/-- The `time::serde::rfc3339` serialization of a UTC second-precision
date-time: `YYYY-MM-DDTHH:MM:SSZ`. -/
def rfc3339Show (t : OffsetDateTime) : String :=
  toString t.year ++ "-" ++ pad2 t.month ++ "-" ++ pad2 t.day ++ "T"
    ++ pad2 t.hour ++ ":" ++ pad2 t.minute ++ ":" ++ pad2 t.second ++ "Z"

/-- `AcmeAuthz` from `src/acme/src/authz.rs` lines 70-80: `status`,
optional `expires` (RFC 3339), `challenges`, `identifier`. -/
structure AcmeAuthz where
  status : AuthzStatus
  expires : Option OffsetDateTime
  challenges : List AcmeChallenge
  identifier : AcmeIdentifier
deriving DecidableEq, Repr

/-- Deserialization of `AuthzStatus` (`#[serde(rename_all = "lowercase")]`). -/
def readAuthzStatus : Json → Except String AuthzStatus
  | .str "pending" => .ok .Pending
  | .str "invalid" => .ok .Invalid
  | .str "valid" => .ok .Valid
  | .str "revoked" => .ok .Revoked
  | .str "deactivated" => .ok .Deactivated
  | .str "expired" => .ok .Expired
  | _ => .error "unknown variant for AuthzStatus"

/-- Serialization of `AuthzStatus`. -/
def writeAuthzStatus : AuthzStatus → Json
  | .Pending => .str "pending"
  | .Invalid => .str "invalid"
  | .Valid => .str "valid"
  | .Revoked => .str "revoked"
  | .Deactivated => .str "deactivated"
  | .Expired => .str "expired"

/-- Modelled from the spec: deserialization of `ChallengeStatus`
(lowercase variant names, as every status enum in this codebase). -/
def readChallengeStatus : Json → Except String ChallengeStatus
  | .str "pending" => .ok .Pending
  | .str "processing" => .ok .Processing
  | .str "valid" => .ok .Valid
  | .str "invalid" => .ok .Invalid
  | _ => .error "unknown variant for ChallengeStatus"

/-- Modelled from the spec: serialization of `ChallengeStatus`. -/
def writeChallengeStatus : ChallengeStatus → Json
  | .Pending => .str "pending"
  | .Processing => .str "processing"
  | .Valid => .str "valid"
  | .Invalid => .str "invalid"

/-- Modelled from the spec: deserialization of `AcmeChallengeType` from its
wire names (`http-01`, `dns-01`, `wire-dpop-01`, `wire-oidc-01`). -/
def readChallengeType : Json → Except String AcmeChallengeType
  | .str "http-01" => .ok .Http01
  | .str "dns-01" => .ok .Dns01
  | .str "wire-dpop-01" => .ok .WireDpop01
  | .str "wire-oidc-01" => .ok .WireOidc01
  | _ => .error "unknown variant for AcmeChallengeType"

/-- Modelled from the spec: serialization of `AcmeChallengeType`. -/
def writeChallengeType : AcmeChallengeType → Json
  | .Http01 => .str "http-01"
  | .Dns01 => .str "dns-01"
  | .WireDpop01 => .str "wire-dpop-01"
  | .WireOidc01 => .str "wire-oidc-01"

/-- Reads a JSON string field. -/
def readStringField (j : Json) (key : String) : Except String String :=
  match j.lookup key with
  | some (.str s) => .ok s
  | some _ => .error ("invalid type for field `" ++ key ++ "`")
  | none => .error ("missing field `" ++ key ++ "`")

/-- Modelled from the spec: deserialization of `AcmeChallenge`. `status` is a
plain `Option` field (absent or `null` ↦ `None`); `typ` is renamed `type`;
`url` and `token` are required strings. -/
def readAcmeChallenge (j : Json) : Except String AcmeChallenge := do
  let status ← match j.lookup "status" with
    | none => pure none
    | some .null => pure none
    | some s => do pure (some (← readChallengeStatus s))
  let typ ← match j.lookup "type" with
    | none => Except.error "missing field `type`"
    | some t => readChallengeType t
  let url ← readStringField j "url"
  let token ← readStringField j "token"
  pure ⟨status, typ, url, token⟩

/-- Modelled from the spec: serialization of `AcmeChallenge`, in declaration
order, an absent `status` being skipped (spec §8, P8: the sample JSON — whose
challenges carry no `status` — re-serializes losslessly). -/
def writeAcmeChallenge (c : AcmeChallenge) : Json :=
  .obj ((match c.status with
          | none => []
          | some s => [("status", writeChallengeStatus s)])
    ++ [("type", writeChallengeType c.typ), ("url", .str c.url),
        ("token", .str c.token)])

/-- Modelled from the spec: deserialization of `AcmeIdentifier` as the tagged
`{type, value}` pair shown by the sample JSON. -/
def readAcmeIdentifier (j : Json) : Except String AcmeIdentifier := do
  let typ ← readStringField j "type"
  let value ← readStringField j "value"
  pure ⟨typ, value⟩

/-- Modelled from the spec: serialization of `AcmeIdentifier`. -/
def writeAcmeIdentifier (i : AcmeIdentifier) : Json :=
  .obj [("type", .str i.typ), ("value", .str i.value)]

/-- Deserialization of `AcmeAuthz` (`authz.rs` lines 67-80,
`#[serde(rename_all = "camelCase")]`; every field name is already camelCase).
`expires` uses `with = "time::serde::rfc3339::option"`, so serde requires the
key (a `deserialize_with` field loses the implicit `Option` default): `null`
↦ `None`, a string must parse as RFC 3339. -/
def readAcmeAuthz (j : Json) : Except String AcmeAuthz := do
  let status ← match j.lookup "status" with
    | none => Except.error "missing field `status`"
    | some s => readAuthzStatus s
  let expires ← match j.lookup "expires" with
    | none => Except.error "missing field `expires`"
    | some .null => pure none
    | some (.str s) =>
      match rfc3339Read s with
      | some t => pure (some t)
      | none => Except.error "invalid RFC 3339 date-time for field `expires`"
    | some _ => Except.error "invalid type for field `expires`"
  let challenges ← match j.lookup "challenges" with
    | none => Except.error "missing field `challenges`"
    | some (.arr xs) => xs.mapM readAcmeChallenge
    | some _ => Except.error "invalid type for field `challenges`"
  let identifier ← match j.lookup "identifier" with
    | none => Except.error "missing field `identifier`"
    | some i => readAcmeIdentifier i
  pure ⟨status, expires, challenges, identifier⟩

/-- Serialization of `AcmeAuthz`, in declaration order (`status`, `expires`,
`challenges`, `identifier`), `expires` being skipped when `None`
(`#[serde(skip_serializing_if = "Option::is_none")]`) and otherwise written
as an RFC 3339 string. -/
def writeAcmeAuthz (a : AcmeAuthz) : Json :=
  .obj ([("status", writeAuthzStatus a.status)]
    ++ (match a.expires with
        | none => []
        | some t => [("expires", .str (rfc3339Show t))])
    ++ [("challenges", .arr (a.challenges.map writeAcmeChallenge)),
        ("identifier", writeAcmeIdentifier a.identifier)])

/-- `RustyAcme::new_authz_response` from `src/acme/src/authz.rs` lines 30-46:
deserialize, then dispatch on `status` — `Pending` falls through to
`Ok(authz)`, the four error statuses map to their `AcmeAuthzError`, and
`Valid` is a `ClientImplementationError` with the source's static reason. -/
def new_authz_response (response : Json) : Except RustyAcmeError AcmeAuthz :=
  match readAcmeAuthz response with
  | .error e => .error (.JsonError e)
  | .ok authz =>
    match authz.status with
    | .Pending => .ok authz
    | .Invalid => .error (.AuthzError .Invalid)
    | .Revoked => .error (.AuthzError .Revoked)
    | .Deactivated => .error (.AuthzError .Deactivated)
    | .Expired => .error (.AuthzError .Expired)
    | .Valid => .error (.ClientImplementationError
        "An authorization is not supposed to be valid at this point. You should only use this method to parse the response of an authorization creation.")

/-- `AcmeAuthz::http_challenge`, `authz.rs` lines 83-85. -/
def AcmeAuthz.http_challenge (a : AcmeAuthz) : Option AcmeChallenge :=
  a.challenges.find? (fun c => c.typ == AcmeChallengeType.Http01)

/-- `AcmeAuthz::wire_dpop_challenge`, `authz.rs` lines 87-89. -/
def AcmeAuthz.wire_dpop_challenge (a : AcmeAuthz) : Option AcmeChallenge :=
  a.challenges.find? (fun c => c.typ == AcmeChallengeType.WireDpop01)

/-- `AcmeAuthz::wire_oidc_challenge`, `authz.rs` lines 91-93. -/
def AcmeAuthz.wire_oidc_challenge (a : AcmeAuthz) : Option AcmeChallenge :=
  a.challenges.find? (fun c => c.typ == AcmeChallengeType.WireOidc01)

/-- `AcmeAuthz::verify`, `authz.rs` lines 95-108. The clock reading
`OffsetDateTime::now_utc().unix_timestamp()` is the explicit `now` argument;
`is_expired` is `expires.map(unix_timestamp).map(|e| e < now)
.unwrap_or_default()` — `false` when `expires` is `None`. -/
def AcmeAuthz.verify (a : AcmeAuthz) (now : Nat) : Except RustyAcmeError Unit :=
  let is_expired :=
    ((a.expires.map OffsetDateTime.unix_timestamp).map
      (fun expires => decide (expires < now))).getD false
  if is_expired then .error (.AuthzError .Expired) else .ok ()

/-- The sample authorization JSON from the `can_deserialize_sample_response`
test (`authz.rs` lines 154-173), after RFC 8555 §7.5. -/
def rfcSampleJson : Json :=
  .obj [("status", .str "pending"),
        ("expires", .str "2016-01-02T14:09:30Z"),
        ("identifier", .obj [("type", .str "wireapp-id"),
                             ("value", .str "www.example.org")]),
        ("challenges", .arr
          [.obj [("type", .str "http-01"),
                 ("url", .str "https://example.com/acme/chall/prV_B7yEyA4"),
                 ("token", .str "DGyRejmCefe7v4NfDGDKfA")],
           .obj [("type", .str "dns-01"),
                 ("url", .str "https://example.com/acme/chall/Rg5dV14Gh1Q"),
                 ("token", .str "DGyRejmCefe7v4NfDGDKfA")]])]

/-- The structured value the sample JSON denotes. -/
def rfcSampleAuthz : AcmeAuthz :=
  { status := .Pending
    expires := some ⟨2016, 1, 2, 14, 9, 30⟩
    challenges :=
      [⟨none, .Http01, "https://example.com/acme/chall/prV_B7yEyA4",
        "DGyRejmCefe7v4NfDGDKfA"⟩,
       ⟨none, .Dns01, "https://example.com/acme/chall/Rg5dV14Gh1Q",
        "DGyRejmCefe7v4NfDGDKfA"⟩]
    identifier := ⟨"wireapp-id", "www.example.org"⟩ }

end RustyAcme

namespace RustyJwtTools

/-- Whether the standard claim named `name` is present in a claim set — the
four claims whose presence `verify_jwt` enforces after signature
verification; any other name is vacuously present. -/
def claimPresent {T : Type} (claims : JWTClaims T) : String → Bool
  | "jti" => claims.jwt_id.isSome
  | "exp" => claims.expires_at.isSome
  | "iat" => claims.issued_at.isSome
  | "nbf" => claims.invalid_before.isSome
  | _ => true

/-- A concrete claim set: issued at 1000, expiring at 2000, with all four
standard claims present. -/
def sampleClaims : JWTClaims Unit :=
  { issued_at := some 1000
    expires_at := some 2000
    invalid_before := some 1000
    audiences := none
    issuer := none
    jwt_id := some "abc"
    subject := some "wireapp://ZHVtbXk!a1b2c3@wire.com"
    nonce := none
    custom := () }

/-- A concrete DPoP payload. -/
def cexDpop : Dpop :=
  { htm := "POST"
    htu := "https://wire.example.com/clients/1a2b3c/access-token"
    challenge := "okAJ33Ym/XS2qmmhhh7aWSbBlYy4Ttm1EysqW8I/9ng"
    handle := "wireapp://%40beltram_wire@wire.com"
    team := "wire" }

end RustyJwtTools

namespace RustyAcme

/-- A concrete authorization carrying the two wire challenge types and no
expiry. -/
def wireAuthz : AcmeAuthz :=
  { status := .Pending
    expires := none
    challenges :=
      [⟨none, .WireDpop01, "https://wire.com/acme/chall/prV_B7yEyA4",
        "DGyRejmCefe7v4NfDGDKfA"⟩,
       ⟨none, .WireOidc01, "https://wire.com/acme/chall/Rg5dV14Gh1Q",
        "DGyRejmCefe7v4NfDGDKfA"⟩]
    identifier := ⟨"wireapp-id", "wire.com"⟩ }

end RustyAcme

open RustyJwtTools RustyAcme

/-- Evaluation of `verify_jwt` when the library call succeeded and all four
standard claims are present: only the `exp` threshold check remains. -/
theorem verify_jwt_eval_some {T : Type} (claims : JWTClaims T) (m : Nat)
    (j : String) (e i n : Nat)
    (hj : claims.jwt_id = some j) (he : claims.expires_at = some e)
    (hi : claims.issued_at = some i) (hn : claims.invalid_before = some n) :
    verify_jwt (Except.ok claims) m =
      if e > m then Except.error RustyJwtError.TokenLivesTooLong
      else Except.ok claims := by
  simp [verify_jwt, hj, he, hi, hn]

/-- Characterization of acceptance by `verify_jwt` after a successful
library call: the output is the input claim set, the four standard claims
are present, and `exp` is at most the threshold. -/
theorem verify_jwt_ok_iff {T : Type} (claims : JWTClaims T) (m : Nat)
    (out : JWTClaims T) :
    verify_jwt (Except.ok claims) m = Except.ok out ↔
      (out = claims ∧ claims.jwt_id.isSome = true ∧
       claims.issued_at.isSome = true ∧ claims.invalid_before.isSome = true ∧
       ∃ e, claims.expires_at = some e ∧ e ≤ m) := by
  cases hj : claims.jwt_id with
  | none => simp [verify_jwt, hj]
  | some j =>
    cases he : claims.expires_at with
    | none => simp [verify_jwt, hj, he]
    | some e =>
      cases hi : claims.issued_at with
      | none => simp [verify_jwt, hj, he, hi]
      | some i =>
        cases hn : claims.invalid_before with
        | none => simp [verify_jwt, hj, he, hi, hn]
        | some n =>
          rw [verify_jwt_eval_some claims m j e i n hj he hi hn]
          by_cases hgt : e > m
          · have hle : ¬ e ≤ m := by omega
            rw [if_pos hgt]
            simp [hj, hi, hn, he, hle]
          · have hle : e ≤ m := by omega
            rw [if_neg hgt]
            simp [hj, hi, hn, he, hle, eq_comm]

/-- Two strings cannot be equal when one starts with a pattern the other
does not start with. -/
theorem ne_of_str_starts_with {r : String} (p s : String)
    (h : str_starts_with r p = true) (hs : str_starts_with s p = false) :
    r ≠ s := by
  intro he
  subst he
  rw [hs] at h
  cases h

/-- A string starting with `p` also starts with every prefix `q` of `p`. -/
theorem str_starts_with_trans {r p q : String}
    (h : str_starts_with r p = true)
    (hqp : q.toList.isPrefixOf p.toList = true) :
    str_starts_with r q = true := by
  rw [str_starts_with, List.isPrefixOf_iff_prefix] at h ⊢
  rw [List.isPrefixOf_iff_prefix] at hqp
  exact hqp.trans h

/-- A string starting with `q` does not start with any `p` incomparable
with `q` (neither is a prefix of the other). -/
theorem str_starts_with_excl {r : String} (p q : String)
    (h : str_starts_with r q = true)
    (hpq : p.toList.isPrefixOf q.toList = false)
    (hqp : q.toList.isPrefixOf p.toList = false) :
    str_starts_with r p = false := by
  cases hb : str_starts_with r p with
  | false => rfl
  | true =>
    exfalso
    rw [str_starts_with, List.isPrefixOf_iff_prefix] at h hb
    rcases List.prefix_or_prefix_of_prefix hb h with h1 | h1
    · rw [← List.isPrefixOf_iff_prefix] at h1
      rw [h1] at hpq
      cases hpq
    · rw [← List.isPrefixOf_iff_prefix] at h1
      rw [h1] at hqp
      cases hqp

/-- A string starting with the serde prefix `missing field \x60` differs from
each of the ten exact reasons `jwt_error_mapping` matches first. -/
theorem ne_exact_arms_of_missing_field {r : String}
    (h : str_starts_with r "missing field `" = true) :
    r ≠ "Required subject missing" ∧ r ≠ "Required nonce missing" ∧
    r ≠ "Required subject mismatch" ∧ r ≠ "Required nonce mismatch" ∧
    r ≠ "Required issuer mismatch" ∧ r ≠ "Clock drift detected" ∧
    r ≠ "Token not valid yet" ∧ r ≠ "Token has expired" ∧
    r ≠ "Invalid JWK in DPoP token" ∧ r ≠ "Required issuer missing" :=
  ⟨ne_of_str_starts_with _ _ h (by decide), ne_of_str_starts_with _ _ h (by decide),
   ne_of_str_starts_with _ _ h (by decide), ne_of_str_starts_with _ _ h (by decide),
   ne_of_str_starts_with _ _ h (by decide), ne_of_str_starts_with _ _ h (by decide),
   ne_of_str_starts_with _ _ h (by decide), ne_of_str_starts_with _ _ h (by decide),
   ne_of_str_starts_with _ _ h (by decide), ne_of_str_starts_with _ _ h (by decide)⟩

/-- Claim C1: a token accepted by `verify_jwt` with a given `max_expiration`
has `exp - iat ≤ max_expiration`, and a token (whose signature verified and
whose standard claims are present) with `exp - iat` exceeding
`max_expiration` is rejected with `TokenLivesTooLong`. (The code compares
the absolute `exp` against `max_expiration`; since `exp - iat ≤ exp`, an
accepted token's lifetime is in particular below the threshold, and a
lifetime above the threshold forces `exp` above it.) -/
theorem verify_jwt_lifetime_bounded {T : Type}
    (r : Except String (JWTClaims T)) (max_expiration : Nat) :
    (∀ out, verify_jwt r max_expiration = Except.ok out →
       ∀ e i, out.expires_at = some e → out.issued_at = some i →
         e - i ≤ max_expiration) ∧
    (∀ (claims : JWTClaims T) (j : String) (e i n : Nat),
       r = Except.ok claims →
       claims.jwt_id = some j → claims.expires_at = some e →
       claims.issued_at = some i → claims.invalid_before = some n →
       max_expiration < e - i →
       verify_jwt r max_expiration =
         Except.error RustyJwtError.TokenLivesTooLong) := by
  constructor
  · intro out hok e i hexp hiat
    cases r with
    | error s => simp [verify_jwt] at hok
    | ok claims =>
      obtain ⟨rfl, -, -, -, e', he', hle⟩ :=
        (verify_jwt_ok_iff claims max_expiration out).mp hok
      rw [hexp] at he'
      obtain rfl := Option.some.inj he'
      omega
  · intro claims j e i n hr hj he hi hn hlt
    subst hr
    rw [verify_jwt_eval_some claims max_expiration j e i n hj he hi hn]
    rw [if_pos (show e > max_expiration by omega)]

/-- Witness for C1: a concrete over-long token (`iat 1000`, `exp 2000`,
threshold 500) is rejected with `TokenLivesTooLong`. -/
theorem verify_jwt_lifetime_bounded_witness :
    verify_jwt (Except.ok sampleClaims) 500 =
      Except.error RustyJwtError.TokenLivesTooLong :=
  (verify_jwt_lifetime_bounded (Except.ok sampleClaims) 500).2
    sampleClaims "abc" 2000 1000 1000 rfl rfl rfl rfl rfl (by decide)

/-- Claim C2 (counterexample): with clock reading 10000 and expiry 100,
`into_jwt_claims` yields `iat = 6400` and `exp = 10100`, so `exp` is not
`iat + expiry`. -/
theorem into_jwt_claims_exp_ne_iat_plus_expiry :
    (cexDpop.into_jwt_claims "backendNonce"
      ⟨"wireapp://ZHVtbXk!a1b2c3@wire.com"⟩ 100
      "https://wire.com/acme/chall/prV_B7yEyA4" 10000 "jti-1").issued_at =
        some 6400 ∧
    (cexDpop.into_jwt_claims "backendNonce"
      ⟨"wireapp://ZHVtbXk!a1b2c3@wire.com"⟩ 100
      "https://wire.com/acme/chall/prV_B7yEyA4" 10000 "jti-1").expires_at =
        some 10100 ∧
    (10100 : Nat) ≠ 6400 + 100 :=
  ⟨rfl, rfl, by decide⟩

/-- Claim C2 (amended): `into_jwt_claims` produces claims with
`sub = ClientId URI`, `aud = audience`, `nonce = backend nonce`, the given
`jti`, `iat = nbf = now − NOW_LEEWAY_SECONDS` with `NOW_LEEWAY_SECONDS =
3600`, and `exp = now + expiry` (that is, `iat + NOW_LEEWAY_SECONDS +
expiry`, not `iat + expiry`). -/
theorem into_jwt_claims_fields (d : Dpop) (nonce : String) (cid : ClientId)
    (expiry : Nat) (aud : String) (now : Nat) (jti : String) :
    d.into_jwt_claims nonce cid expiry aud now jti =
      { issued_at := some (now - Dpop.NOW_LEEWAY_SECONDS)
        expires_at := some (now + expiry)
        invalid_before := some (now - Dpop.NOW_LEEWAY_SECONDS)
        audiences := some aud
        issuer := none
        jwt_id := some jti
        subject := some cid.to_uri
        nonce := some nonce
        custom := d } ∧
    Dpop.NOW_LEEWAY_SECONDS = 3600 :=
  ⟨rfl, rfl⟩

/-- Claim C5: a token accepted by `verify_jwt` has all of `jti`, `exp`,
`iat`, `nbf` present; otherwise, when one of them is absent after the
library call succeeded, `verify_jwt` returns `MissingTokenClaim` carrying
that claim's name. -/
theorem verify_jwt_requires_standard_claims {T : Type}
    (claims : JWTClaims T) (m : Nat) :
    (∀ out, verify_jwt (Except.ok claims) m = Except.ok out →
       claimPresent claims "jti" = true ∧ claimPresent claims "exp" = true ∧
       claimPresent claims "iat" = true ∧ claimPresent claims "nbf" = true) ∧
    ((claimPresent claims "jti" = true ∧ claimPresent claims "exp" = true ∧
      claimPresent claims "iat" = true ∧ claimPresent claims "nbf" = true) ∨
     ∃ name, (name = "jti" ∨ name = "exp" ∨ name = "iat" ∨ name = "nbf") ∧
       claimPresent claims name = false ∧
       verify_jwt (Except.ok claims) m =
         Except.error (RustyJwtError.MissingTokenClaim name)) := by
  constructor
  · intro out hok
    obtain ⟨-, h1, h2, h3, e, he, -⟩ := (verify_jwt_ok_iff claims m out).mp hok
    exact ⟨by simpa [claimPresent] using h1, by simp [claimPresent, he],
           by simpa [claimPresent] using h2, by simpa [claimPresent] using h3⟩
  · cases hj : claims.jwt_id with
    | none =>
      exact Or.inr ⟨"jti", Or.inl rfl, by simp [claimPresent, hj],
        by simp [verify_jwt, hj]⟩
    | some j =>
      cases he : claims.expires_at with
      | none =>
        exact Or.inr ⟨"exp", by simp, by simp [claimPresent, he],
          by simp [verify_jwt, hj, he]⟩
      | some e =>
        cases hi : claims.issued_at with
        | none =>
          exact Or.inr ⟨"iat", by simp, by simp [claimPresent, hi],
            by simp [verify_jwt, hj, he, hi]⟩
        | some i =>
          cases hn : claims.invalid_before with
          | none =>
            exact Or.inr ⟨"nbf", by simp, by simp [claimPresent, hn],
              by simp [verify_jwt, hj, he, hi, hn]⟩
          | some n =>
            exact Or.inl (by simp [claimPresent, hj, he, hi, hn])

/-- Witness for C5: the concrete claim set accepted at threshold 5000 has
all four standard claims present. -/
theorem verify_jwt_requires_standard_claims_witness :
    claimPresent sampleClaims "jti" = true ∧
    claimPresent sampleClaims "exp" = true ∧
    claimPresent sampleClaims "iat" = true ∧
    claimPresent sampleClaims "nbf" = true :=
  (verify_jwt_requires_standard_claims sampleClaims 5000).1 sampleClaims rfl

/-- Claim C6: the verification options built from `Verify` require exactly
the configured backend nonce (none when none is configured), require the
ClientId URI as subject, and allow exactly the configured `htu` as issuer
when present; a missing required nonce surfaces as
`MissingTokenClaim("nonce")` and a differing one as `DpopNonceMismatch`
through `jwt_error_mapping`. -/
theorem verification_options_of_verify_spec (v : Verify) :
    (verificationOptionsOfVerify v).required_nonce = v.backend_nonce ∧
    (verificationOptionsOfVerify v).required_subject =
      some v.client_id.to_uri ∧
    (verificationOptionsOfVerify v).allowed_issuers =
      v.issuer.map (fun i => [i]) ∧
    jwt_error_mapping "Required nonce missing" =
      RustyJwtError.MissingTokenClaim "nonce" ∧
    jwt_error_mapping "Required nonce mismatch" =
      RustyJwtError.DpopNonceMismatch :=
  ⟨rfl, rfl, rfl, by decide, by decide⟩

/-- Claim C4 (counterexample): the reason string
`Invalid JWK in DPoP token` is not in the claim's enumeration, yet the code
maps it to `InvalidDpopJwk`, not to `InvalidToken(reason)` as the claim's
fallthrough clause demands. -/
theorem jwt_error_mapping_invalid_jwk_cex :
    jwt_error_mapping "Invalid JWK in DPoP token" =
      RustyJwtError.InvalidDpopJwk ∧
    jwt_error_mapping "Invalid JWK in DPoP token" ≠
      RustyJwtError.InvalidToken "Invalid JWK in DPoP token" :=
  ⟨by decide, by decide⟩

/-- Claim C4 (amended): `jwt_error_mapping` maps each documented textual
failure reason deterministically and 1:1 to its typed error — the ten exact
reasons (including `Invalid JWK in DPoP token` ↦ `InvalidDpopJwk`), reasons
starting with `missing field \x60X\x60` for the nine listed DPoP/access-token
fields `X` to `MissingTokenClaim(X)` — and every other reason to
`InvalidToken(reason)`. -/
theorem jwt_error_mapping_contract :
    (jwt_error_mapping "Required subject missing" =
        RustyJwtError.MissingTokenClaim "sub" ∧
     jwt_error_mapping "Required nonce missing" =
        RustyJwtError.MissingTokenClaim "nonce" ∧
     jwt_error_mapping "Required subject mismatch" =
        RustyJwtError.TokenSubMismatch ∧
     jwt_error_mapping "Required nonce mismatch" =
        RustyJwtError.DpopNonceMismatch ∧
     jwt_error_mapping "Required issuer mismatch" =
        RustyJwtError.DpopHtuMismatch ∧
     jwt_error_mapping "Clock drift detected" =
        RustyJwtError.InvalidDpopIat ∧
     jwt_error_mapping "Token not valid yet" =
        RustyJwtError.DpopNotYetValid ∧
     jwt_error_mapping "Token has expired" =
        RustyJwtError.TokenExpired ∧
     jwt_error_mapping "Invalid JWK in DPoP token" =
        RustyJwtError.InvalidDpopJwk ∧
     jwt_error_mapping "Required issuer missing" =
        RustyJwtError.MissingIssuer) ∧
    (∀ r, str_starts_with r "missing field `chal`" = true →
       jwt_error_mapping r = RustyJwtError.MissingTokenClaim "chal") ∧
    (∀ r, str_starts_with r "missing field `htm`" = true →
       jwt_error_mapping r = RustyJwtError.MissingTokenClaim "htm") ∧
    (∀ r, str_starts_with r "missing field `htu`" = true →
       jwt_error_mapping r = RustyJwtError.MissingTokenClaim "htu") ∧
    (∀ r, str_starts_with r "missing field `cnf`" = true →
       jwt_error_mapping r = RustyJwtError.MissingTokenClaim "cnf") ∧
    (∀ r, str_starts_with r "missing field `proof`" = true →
       jwt_error_mapping r = RustyJwtError.MissingTokenClaim "proof") ∧
    (∀ r, str_starts_with r "missing field `api_version`" = true →
       jwt_error_mapping r = RustyJwtError.MissingTokenClaim "api_version") ∧
    (∀ r, str_starts_with r "missing field `client_id`" = true →
       jwt_error_mapping r = RustyJwtError.MissingTokenClaim "client_id") ∧
    (∀ r, str_starts_with r "missing field `scope`" = true →
       jwt_error_mapping r = RustyJwtError.MissingTokenClaim "scope") ∧
    (∀ r, str_starts_with r "missing field `handle`" = true →
       jwt_error_mapping r = RustyJwtError.MissingTokenClaim "handle") ∧
    (∀ r, r ∉ ["Required subject missing", "Required nonce missing",
         "Required subject mismatch", "Required nonce mismatch",
         "Required issuer mismatch", "Clock drift detected",
         "Token not valid yet", "Token has expired",
         "Invalid JWK in DPoP token", "Required issuer missing"] →
       (∀ p ∈ ["missing field `chal`", "missing field `htm`",
           "missing field `htu`", "missing field `cnf`",
           "missing field `proof`", "missing field `api_version`",
           "missing field `client_id`", "missing field `scope`",
           "missing field `handle`"], str_starts_with r p = false) →
       jwt_error_mapping r = RustyJwtError.InvalidToken r) := by
  refine ⟨by decide, ?_, ?_, ?_, ?_, ?_, ?_, ?_, ?_, ?_, ?_⟩
  · intro r h
    obtain ⟨e1, e2, e3, e4, e5, e6, e7, e8, e9, e10⟩ :=
      ne_exact_arms_of_missing_field (str_starts_with_trans h (by decide))
    simp [jwt_error_mapping, e1, e2, e3, e4, e5, e6, e7, e8, e9, e10, h]
  · intro r h
    obtain ⟨e1, e2, e3, e4, e5, e6, e7, e8, e9, e10⟩ :=
      ne_exact_arms_of_missing_field (str_starts_with_trans h (by decide))
    have f1 := str_starts_with_excl "missing field `chal`" _ h (by decide) (by decide)
    simp [jwt_error_mapping, e1, e2, e3, e4, e5, e6, e7, e8, e9, e10, f1, h]
  · intro r h
    obtain ⟨e1, e2, e3, e4, e5, e6, e7, e8, e9, e10⟩ :=
      ne_exact_arms_of_missing_field (str_starts_with_trans h (by decide))
    have f1 := str_starts_with_excl "missing field `chal`" _ h (by decide) (by decide)
    have f2 := str_starts_with_excl "missing field `htm`" _ h (by decide) (by decide)
    simp [jwt_error_mapping, e1, e2, e3, e4, e5, e6, e7, e8, e9, e10, f1, f2, h]
  · intro r h
    obtain ⟨e1, e2, e3, e4, e5, e6, e7, e8, e9, e10⟩ :=
      ne_exact_arms_of_missing_field (str_starts_with_trans h (by decide))
    have f1 := str_starts_with_excl "missing field `chal`" _ h (by decide) (by decide)
    have f2 := str_starts_with_excl "missing field `htm`" _ h (by decide) (by decide)
    have f3 := str_starts_with_excl "missing field `htu`" _ h (by decide) (by decide)
    simp [jwt_error_mapping, e1, e2, e3, e4, e5, e6, e7, e8, e9, e10, f1, f2, f3, h]
  · intro r h
    obtain ⟨e1, e2, e3, e4, e5, e6, e7, e8, e9, e10⟩ :=
      ne_exact_arms_of_missing_field (str_starts_with_trans h (by decide))
    have f1 := str_starts_with_excl "missing field `chal`" _ h (by decide) (by decide)
    have f2 := str_starts_with_excl "missing field `htm`" _ h (by decide) (by decide)
    have f3 := str_starts_with_excl "missing field `htu`" _ h (by decide) (by decide)
    have f4 := str_starts_with_excl "missing field `cnf`" _ h (by decide) (by decide)
    simp [jwt_error_mapping, e1, e2, e3, e4, e5, e6, e7, e8, e9, e10,
      f1, f2, f3, f4, h]
  · intro r h
    obtain ⟨e1, e2, e3, e4, e5, e6, e7, e8, e9, e10⟩ :=
      ne_exact_arms_of_missing_field (str_starts_with_trans h (by decide))
    have f1 := str_starts_with_excl "missing field `chal`" _ h (by decide) (by decide)
    have f2 := str_starts_with_excl "missing field `htm`" _ h (by decide) (by decide)
    have f3 := str_starts_with_excl "missing field `htu`" _ h (by decide) (by decide)
    have f4 := str_starts_with_excl "missing field `cnf`" _ h (by decide) (by decide)
    have f5 := str_starts_with_excl "missing field `proof`" _ h (by decide) (by decide)
    simp [jwt_error_mapping, e1, e2, e3, e4, e5, e6, e7, e8, e9, e10,
      f1, f2, f3, f4, f5, h]
  · intro r h
    obtain ⟨e1, e2, e3, e4, e5, e6, e7, e8, e9, e10⟩ :=
      ne_exact_arms_of_missing_field (str_starts_with_trans h (by decide))
    have f1 := str_starts_with_excl "missing field `chal`" _ h (by decide) (by decide)
    have f2 := str_starts_with_excl "missing field `htm`" _ h (by decide) (by decide)
    have f3 := str_starts_with_excl "missing field `htu`" _ h (by decide) (by decide)
    have f4 := str_starts_with_excl "missing field `cnf`" _ h (by decide) (by decide)
    have f5 := str_starts_with_excl "missing field `proof`" _ h (by decide) (by decide)
    have f6 := str_starts_with_excl "missing field `api_version`" _ h (by decide) (by decide)
    simp [jwt_error_mapping, e1, e2, e3, e4, e5, e6, e7, e8, e9, e10,
      f1, f2, f3, f4, f5, f6, h]
  · intro r h
    obtain ⟨e1, e2, e3, e4, e5, e6, e7, e8, e9, e10⟩ :=
      ne_exact_arms_of_missing_field (str_starts_with_trans h (by decide))
    have f1 := str_starts_with_excl "missing field `chal`" _ h (by decide) (by decide)
    have f2 := str_starts_with_excl "missing field `htm`" _ h (by decide) (by decide)
    have f3 := str_starts_with_excl "missing field `htu`" _ h (by decide) (by decide)
    have f4 := str_starts_with_excl "missing field `cnf`" _ h (by decide) (by decide)
    have f5 := str_starts_with_excl "missing field `proof`" _ h (by decide) (by decide)
    have f6 := str_starts_with_excl "missing field `api_version`" _ h (by decide) (by decide)
    have f7 := str_starts_with_excl "missing field `client_id`" _ h (by decide) (by decide)
    simp [jwt_error_mapping, e1, e2, e3, e4, e5, e6, e7, e8, e9, e10,
      f1, f2, f3, f4, f5, f6, f7, h]
  · intro r h
    obtain ⟨e1, e2, e3, e4, e5, e6, e7, e8, e9, e10⟩ :=
      ne_exact_arms_of_missing_field (str_starts_with_trans h (by decide))
    have f1 := str_starts_with_excl "missing field `chal`" _ h (by decide) (by decide)
    have f2 := str_starts_with_excl "missing field `htm`" _ h (by decide) (by decide)
    have f3 := str_starts_with_excl "missing field `htu`" _ h (by decide) (by decide)
    have f4 := str_starts_with_excl "missing field `cnf`" _ h (by decide) (by decide)
    have f5 := str_starts_with_excl "missing field `proof`" _ h (by decide) (by decide)
    have f6 := str_starts_with_excl "missing field `api_version`" _ h (by decide) (by decide)
    have f7 := str_starts_with_excl "missing field `client_id`" _ h (by decide) (by decide)
    have f8 := str_starts_with_excl "missing field `scope`" _ h (by decide) (by decide)
    simp [jwt_error_mapping, e1, e2, e3, e4, e5, e6, e7, e8, e9, e10,
      f1, f2, f3, f4, f5, f6, f7, f8, h]
  · intro r hmem hpre
    simp only [List.mem_cons, List.not_mem_nil, or_false, not_or] at hmem
    obtain ⟨e1, e2, e3, e4, e5, e6, e7, e8, e9, e10⟩ := hmem
    have f1 := hpre "missing field `chal`" (by simp)
    have f2 := hpre "missing field `htm`" (by simp)
    have f3 := hpre "missing field `htu`" (by simp)
    have f4 := hpre "missing field `cnf`" (by simp)
    have f5 := hpre "missing field `proof`" (by simp)
    have f6 := hpre "missing field `api_version`" (by simp)
    have f7 := hpre "missing field `client_id`" (by simp)
    have f8 := hpre "missing field `scope`" (by simp)
    have f9 := hpre "missing field `handle`" (by simp)
    simp [jwt_error_mapping, e1, e2, e3, e4, e5, e6, e7, e8, e9, e10,
      f1, f2, f3, f4, f5, f6, f7, f8, f9]

/-- Witness for C4 (amended): a concrete serde message maps to the named
missing claim, and an unlisted reason falls through to `InvalidToken`. -/
theorem jwt_error_mapping_contract_witness :
    jwt_error_mapping "missing field `htu` at line 1 column 250" =
      RustyJwtError.MissingTokenClaim "htu" ∧
    jwt_error_mapping "CT sequence number mismatch" =
      RustyJwtError.InvalidToken "CT sequence number mismatch" :=
  ⟨jwt_error_mapping_contract.2.2.2.1
      "missing field `htu` at line 1 column 250" (by decide),
   (jwt_error_mapping_contract.2.2.2.2.2.2.2.2.2.2)
      "CT sequence number mismatch" (by decide) (by decide)⟩

/-- Claim C3: for every JSON authorization response that deserializes,
`new_authz_response` returns the parsed `AcmeAuthz` exactly when its status
is `pending`; `invalid`, `revoked`, `deactivated` and `expired` yield the
corresponding `AcmeAuthzError`, and `valid` yields a
`ClientImplementationError`. -/
theorem new_authz_response_status_dispatch (j : Json) (a : AcmeAuthz)
    (h : readAcmeAuthz j = Except.ok a) :
    (new_authz_response j = Except.ok a ↔ a.status = AuthzStatus.Pending) ∧
    (a.status = AuthzStatus.Invalid → new_authz_response j =
       Except.error (RustyAcmeError.AuthzError AcmeAuthzError.Invalid)) ∧
    (a.status = AuthzStatus.Revoked → new_authz_response j =
       Except.error (RustyAcmeError.AuthzError AcmeAuthzError.Revoked)) ∧
    (a.status = AuthzStatus.Deactivated → new_authz_response j =
       Except.error (RustyAcmeError.AuthzError AcmeAuthzError.Deactivated)) ∧
    (a.status = AuthzStatus.Expired → new_authz_response j =
       Except.error (RustyAcmeError.AuthzError AcmeAuthzError.Expired)) ∧
    (a.status = AuthzStatus.Valid → ∃ reason, new_authz_response j =
       Except.error (RustyAcmeError.ClientImplementationError reason)) := by
  refine ⟨?_, ?_, ?_, ?_, ?_, ?_⟩
  · cases hs : a.status <;> simp [new_authz_response, h, hs]
  · intro hs; simp [new_authz_response, h, hs]
  · intro hs; simp [new_authz_response, h, hs]
  · intro hs; simp [new_authz_response, h, hs]
  · intro hs; simp [new_authz_response, h, hs]
  · intro hs
    exact ⟨"An authorization is not supposed to be valid at this point. You should only use this method to parse the response of an authorization creation.",
      by simp [new_authz_response, h, hs]⟩

/-- Witness for C3: the pending RFC 8555 sample response is accepted and
returns the parsed authorization. -/
theorem new_authz_response_status_dispatch_witness :
    new_authz_response rfcSampleJson = Except.ok rfcSampleAuthz :=
  (new_authz_response_status_dispatch rfcSampleJson rfcSampleAuthz rfl).1.mpr
    rfl

/-- Claim C7: `AcmeAuthz::verify` returns `AcmeAuthzError::Expired` when the
`expires` timestamp is strictly earlier than the current time, and `Ok(())`
when it is later. -/
theorem authz_verify_expiry (a : AcmeAuthz) (t : OffsetDateTime) (now : Nat)
    (h : a.expires = some t) :
    (t.unix_timestamp < now → a.verify now =
       Except.error (RustyAcmeError.AuthzError AcmeAuthzError.Expired)) ∧
    (now < t.unix_timestamp → a.verify now = Except.ok ()) := by
  constructor
  · intro hlt
    simp [AcmeAuthz.verify, h, hlt]
  · intro hlt
    have hn : ¬ t.unix_timestamp < now := by omega
    simp [AcmeAuthz.verify, h, hn]

/-- Witness for C7: the sample authorization (expiring at unix time
1451743770) is expired one second after and valid one second before. -/
theorem authz_verify_expiry_witness :
    rfcSampleAuthz.verify 1451743771 =
      Except.error (RustyAcmeError.AuthzError AcmeAuthzError.Expired) ∧
    rfcSampleAuthz.verify 1451743769 = Except.ok () :=
  ⟨(authz_verify_expiry rfcSampleAuthz ⟨2016, 1, 2, 14, 9, 30⟩ 1451743771
      rfl).1 (by decide),
   (authz_verify_expiry rfcSampleAuthz ⟨2016, 1, 2, 14, 9, 30⟩ 1451743769
      rfl).2 (by decide)⟩

/-- Claim C8: `wire_dpop_challenge` (resp. `wire_oidc_challenge`) returns a
challenge of the authorization whose `type` is `wire-dpop-01` (resp.
`wire-oidc-01`) whenever one is present, and `None` exactly when no
challenge of that type is present. -/
theorem wire_challenge_selection (a : AcmeAuthz) :
    (∀ c, a.wire_dpop_challenge = some c →
       c ∈ a.challenges ∧ c.typ = AcmeChallengeType.WireDpop01) ∧
    (a.wire_dpop_challenge = none →
       ∀ c ∈ a.challenges, c.typ ≠ AcmeChallengeType.WireDpop01) ∧
    (∀ c, a.wire_oidc_challenge = some c →
       c ∈ a.challenges ∧ c.typ = AcmeChallengeType.WireOidc01) ∧
    (a.wire_oidc_challenge = none →
       ∀ c ∈ a.challenges, c.typ ≠ AcmeChallengeType.WireOidc01) := by
  refine ⟨?_, ?_, ?_, ?_⟩
  · intro c hc
    simp only [AcmeAuthz.wire_dpop_challenge] at hc
    refine ⟨List.mem_of_find?_eq_some hc, ?_⟩
    have := List.find?_some hc
    simpa using this
  · intro hn c hm
    simp only [AcmeAuthz.wire_dpop_challenge] at hn
    have := List.find?_eq_none.mp hn c hm
    simpa using this
  · intro c hc
    simp only [AcmeAuthz.wire_oidc_challenge] at hc
    refine ⟨List.mem_of_find?_eq_some hc, ?_⟩
    have := List.find?_some hc
    simpa using this
  · intro hn c hm
    simp only [AcmeAuthz.wire_oidc_challenge] at hn
    have := List.find?_eq_none.mp hn c hm
    simpa using this

/-- Witness for C8: on a concrete authorization holding both wire challenge
types, the selected DPoP challenge is a member with type `wire-dpop-01`. -/
theorem wire_challenge_selection_witness :
    (⟨none, .WireDpop01, "https://wire.com/acme/chall/prV_B7yEyA4",
      "DGyRejmCefe7v4NfDGDKfA"⟩ : AcmeChallenge) ∈ wireAuthz.challenges ∧
    (⟨none, .WireDpop01, "https://wire.com/acme/chall/prV_B7yEyA4",
      "DGyRejmCefe7v4NfDGDKfA"⟩ : AcmeChallenge).typ =
        AcmeChallengeType.WireDpop01 :=
  (wire_challenge_selection wireAuthz).1 _ rfl

/-- Claim C9: the RFC 8555 sample authorization JSON deserializes into
`AcmeAuthz`, and serializing the result reproduces the recognized fields
(`status`, `expires`, `identifier`, `challenges`) losslessly; the serialized
form also deserializes back to the same value. -/
theorem rfc_sample_roundtrip :
    readAcmeAuthz rfcSampleJson = Except.ok rfcSampleAuthz ∧
    (writeAcmeAuthz rfcSampleAuthz).lookup "status" =
      rfcSampleJson.lookup "status" ∧
    (writeAcmeAuthz rfcSampleAuthz).lookup "expires" =
      rfcSampleJson.lookup "expires" ∧
    (writeAcmeAuthz rfcSampleAuthz).lookup "identifier" =
      rfcSampleJson.lookup "identifier" ∧
    (writeAcmeAuthz rfcSampleAuthz).lookup "challenges" =
      rfcSampleJson.lookup "challenges" ∧
    readAcmeAuthz (writeAcmeAuthz rfcSampleAuthz) =
      Except.ok rfcSampleAuthz :=
  ⟨rfl, rfl, rfl, rfl, rfl, rfl⟩

/-- Claim C10: an authorization without an `expires` timestamp is never
considered expired — `verify` returns `Ok(())` at every current time. -/
theorem authz_verify_no_expiry_ok (a : AcmeAuthz) (now : Nat)
    (h : a.expires = none) :
    a.verify now = Except.ok () := by
  simp [AcmeAuthz.verify, h]

/-- Witness for C10: a concrete authorization with `expires = None` passes
`verify`. -/
theorem authz_verify_no_expiry_ok_witness :
    wireAuthz.verify 1759276800 = Except.ok () :=
  authz_verify_no_expiry_ok wireAuthz 1759276800 rfl
